import Mathlib

/-!
Verification of the segregated-free-list allocator in `src/mm.c`.

The heap is modelled at word granularity: `Heap.mem` maps a byte address to
the `size_t` value stored there (the program only ever accesses 8-aligned
addresses), `Heap.size` is the current heap size in bytes, and `Heap.limit`
is the largest size the heap provider is willing to grow to.  The heap base
(`mem_heap_lo()`) is the constant address 8, so the null pointer (0) is
distinct from every valid address.  `mm_init` places the bucket array
`free_seglist` at the heap base, hence the first block lives at address
8 + ALIGN(MAXPOW*sizeof(void*)) = 208.

Machine integers: every value a run of the program we consider stores is a
size or an address bounded by the heap limit, far below 2^64, so additions
never wrap and are modelled on `Nat`; the C subtractions on `size_t` that
can wrap are modelled by `usub64`.  All functions are executable so that
concrete traces evaluate by `decide`.
-/

set_option maxRecDepth 8000

namespace MMAlloc

/-- `ALIGN(size)` from mm.c: round up to the nearest multiple of 8. -/
def align8 (n : Nat) : Nat := n + 7 - (n + 7) % 8

/-- `GETSIZE(header)`: clear the low (allocated) bit, i.e. `header & -2`. -/
def andm2 (v : Nat) : Nat := v - v % 2

/-- `header | 1`: set the low (allocated) bit. -/
def orOne (v : Nat) : Nat := if v % 2 = 0 then v + 1 else v

/-- Wrapping subtraction of `size_t` values (both operands below 2^64). -/
def usub64 (a b : Nat) : Nat := if b ≤ a then a - b else a + (2 ^ 64 - b)

/-- Number of iterations of `while (size) { size >>= 1; rsp += 1; }` in
`seglist_index`, computed with the first argument as fuel (the bit length
of `n` never exceeds `n` for the sizes that occur, and the fuel is always
instantiated with `n` itself). -/
def bitlenAux : Nat → Nat → Nat
  | 0, _ => 0
  | fuel + 1, n => if n = 0 then 0 else bitlenAux fuel (n / 2) + 1

/-- Bit length of `n`, as computed by the loop in `seglist_index`. -/
def bitlen (n : Nat) : Nat := bitlenAux n n

/-- `seglist_index` from mm.c: bucket index for a block size. -/
def seglist_index (size : Nat) : Nat :=
  if size < 64 then 0
  else if bitlen size - 6 < 25 then bitlen size - 6
  else 24

/-- Allocator heap state: memory contents, current heap size in bytes, and
the heap provider's growth limit. -/
structure Heap where
  mem : Nat → Nat
  size : Nat
  limit : Nat

/-- Read the `size_t` stored at byte address `a`. -/
def read (s : Heap) (a : Nat) : Nat := s.mem a

/-- Store value `v` at byte address `a`. -/
def write (s : Heap) (a v : Nat) : Heap :=
  { s with mem := fun x => if x = a then v else s.mem x }

/-- `memmove(dst, src, n)` at word granularity: full words are copied from
the pre-call state (overlap-safe move semantics); a trailing partial word
of `n % 8` bytes replaces only the low bytes of the destination word. -/
def memmove (s : Heap) (dst src n : Nat) : Heap :=
  { s with mem := fun a =>
      if dst ≤ a ∧ a < dst + n ∧ (a - dst) % 8 = 0 then
        if a - dst + 8 ≤ n then s.mem (src + (a - dst))
        else s.mem (src + (a - dst)) % 2 ^ (8 * (n - (a - dst))) +
          s.mem a / 2 ^ (8 * (n - (a - dst))) * 2 ^ (8 * (n - (a - dst)))
      else s.mem a }

/-- Modelled from the spec: the heap provider's `extend(delta)` primitive
(`mem_sbrk` of memlib, whose source is not in the repository).  It grows
the managed region at its high end and returns the previous high boundary,
or the failure sentinel — taken to be the null address the allocator tests
for — when growth is impossible (negative request, or past the limit).
The region starts at the base address 8 (`mem_heap_lo`). -/
def mem_sbrk (s : Heap) (delta : Int) : Heap × Nat :=
  if delta < 0 ∨ (s.limit : Int) < (s.size : Int) + delta then (s, 0)
  else ({ s with size := s.size + delta.toNat }, 8 + s.size)

/-- `mem_heap_hi()`: address of the last byte of the heap. -/
def mem_heap_hi (s : Heap) : Nat := 8 + s.size - 1

/-- `remove_link` from mm.c: unlink a block from its segregated list,
reading the block's own `next`/`prev` fields (at offsets 8 and 16). -/
def remove_link (s : Heap) (ptr : Nat) : Heap :=
  if read s (ptr + 8) = 0 ∧ read s (ptr + 16) = 0 then
    write s (8 + 8 * seglist_index (andm2 (read s ptr))) 0
  else if read s (ptr + 8) = 0 then
    write s (read s (ptr + 16) + 8) 0
  else if read s (ptr + 16) = 0 then
    let s1 := write s (read s (ptr + 8) + 16) 0
    write s1 (8 + 8 * seglist_index (andm2 (read s1 ptr))) (read s1 (ptr + 8))
  else
    let s1 := write s (read s (ptr + 16) + 8) (read s (ptr + 8))
    write s1 (read s1 (ptr + 8) + 16) (read s1 (ptr + 16))

/-- The `while` loop of `add_to_list`: advance while the next entry exists
and `GETSIZE(GETNEXTFREE(free_slot)) < GETSIZE(*ptr)` — note the source
applies `GETSIZE` to the next pointer itself, comparing an address to a
size.  Fuel-based (instantiated with the heap size, enough for every list
whose nodes are distinct blocks). -/
def findSlot (s : Heap) (sz : Nat) : Nat → Nat → Nat
  | 0, slot => slot
  | fuel + 1, slot =>
    if read s (slot + 8) ≠ 0 ∧ andm2 (read s (slot + 8)) < sz then
      findSlot s sz fuel (read s (slot + 8))
    else slot

/-- `add_to_list` from mm.c: insert a free block into its bucket, either as
the head of an empty bucket or immediately after the slot the walk stops at. -/
def add_to_list (s : Heap) (ptr : Nat) : Heap :=
  let slot := 8 + 8 * seglist_index (andm2 (read s ptr))
  if read s slot = 0 then
    let s1 := write s slot ptr
    let s2 := write s1 (ptr + 8) 0
    write s2 (ptr + 16) 0
  else
    let fs := findSlot s (andm2 (read s ptr)) s.size (read s slot)
    let s1 := write s (ptr + 8) (read s (fs + 8))
    let s2 := write s1 (ptr + 16) fs
    let s3 := if read s2 (fs + 8) ≠ 0 then write s2 (read s2 (fs + 8) + 16) ptr else s2
    write s3 (fs + 8) ptr

/-- Inner loop of `get_optimal_free_block`: scan one bucket for the first
entry of sufficient size (fuel-based list walk). -/
def scanBucket (s : Heap) (size : Nat) : Nat → Nat → Nat
  | _, 0 => 0
  | 0, _ => 0
  | fuel + 1, node =>
    if size ≤ andm2 (read s node) then node
    else scanBucket s size fuel (read s (node + 8))

/-- Outer loop of `get_optimal_free_block`: advance through buckets from
the starting index up to MAXPOW (25 buckets, so fuel 25 is exact). -/
def searchAux (s : Heap) (size : Nat) : Nat → Nat → Nat
  | 0, _ => 0
  | fuel + 1, idx =>
    if idx < 25 then
      let r := scanBucket s size s.size (read s (8 + 8 * idx))
      if r ≠ 0 then r else searchAux s size fuel (idx + 1)
    else 0

/-- `get_optimal_free_block` from mm.c. -/
def get_optimal_free_block (s : Heap) (size : Nat) : Nat :=
  searchAux s size 25 (seglist_index size)

/-- The `for` loop of `mm_init`: clear the first `n` bucket heads. -/
def zeroSlots (s : Heap) : Nat → Heap
  | 0 => s
  | i + 1 => write (zeroSlots s i) (8 + 8 * i) 0

/-- `mm_init` from mm.c: claim `ALIGN(MAXPOW * sizeof(void *))` = 200 bytes
for the bucket array (the result of `mem_sbrk` is not examined), set
`free_seglist` to `mem_heap_lo()` (the constant base 8), fail only if that
is null, and clear all 25 buckets.  Returns 1 on success, 0 on failure. -/
def mm_init (s : Heap) : Heap × Nat :=
  let s1 := (mem_sbrk s ((align8 (25 * 8) : Nat) : Int)).1
  let fs := 8
  if fs = 0 then (s1, 0)
  else (zeroSlots s1 25, 1)

/-- `mm_malloc` from mm.c.  Returns the new state and the payload pointer
(0 for `NULL`). -/
def mm_malloc (s : Heap) (size : Nat) : Heap × Nat :=
  if size = 0 then (s, 0)
  else
    let new_size0 := align8 (size + 2 * 8)
    let new_size := if new_size0 < align8 (4 * 8) then align8 (4 * 8) else new_size0
    let new_header := orOne new_size
    let p := get_optimal_free_block s new_size
    if p ≠ 0 then
      let s1 := remove_link s p
      let old_size := andm2 (read s1 p)
      if 32 ≤ usub64 old_size new_size then
        let leftover := p + new_size
        let s2 := write s1 leftover (usub64 old_size new_size)
        let s3 := write s2 (leftover + andm2 (read s2 leftover) - 8) (usub64 old_size new_size)
        let s4 := add_to_list s3 leftover
        let s5 := write s4 p new_header
        let s6 := write s5 (p + andm2 (read s5 p) - 8) new_header
        (s6, p + 8)
      else
        let nh := orOne old_size
        let s2 := write s1 p nh
        let s3 := write s2 (p + andm2 (read s2 p) - 8) nh
        (s3, p + 8)
    else
      let endp := mem_heap_hi s - (8 - 1)
      if s.size ≠ 0 ∧ (read s endp) % 2 = 0 then
        if 400 < andm2 (read s endp) then
          let p2 := endp - andm2 (read s endp) + 8
          let s1 := (mem_sbrk s ((new_size : Int) - (andm2 (read s endp) : Int))).1
          let s2 := remove_link s1 p2
          let s3 := write s2 p2 new_header
          let s4 := write s3 (p2 + andm2 (read s3 p2) - 8) new_header
          (s4, p2 + 8)
        else
          let r := mem_sbrk s (new_size : Int)
          if r.2 = 0 then (r.1, 0)
          else
            let s3 := write r.1 r.2 new_header
            let s4 := write s3 (r.2 + andm2 (read s3 r.2) - 8) new_header
            (s4, r.2 + 8)
      else
        if 400 < new_size then
          let r := mem_sbrk s (new_size : Int)
          if r.2 = 0 then (r.1, 0)
          else
            let s3 := write r.1 r.2 new_header
            let s4 := write s3 (r.2 + andm2 (read s3 r.2) - 8) new_header
            (s4, r.2 + 8)
        else
          let r := mem_sbrk s ((2 * new_size : Nat) : Int)
          if r.2 = 0 then (r.1, 0)
          else
            let p2 := r.2
            let s2 := write r.1 (p2 + new_size) (andm2 new_header)
            let s3 := write s2 ((p2 + new_size) + andm2 (read s2 (p2 + new_size)) - 8) (andm2 new_header)
            let s4 := add_to_list s3 (p2 + new_size)
            let s5 := write s4 p2 new_header
            let s6 := write s5 (p2 + andm2 (read s5 p2) - 8) new_header
            (s6, p2 + 8)

/-- `mm_coalesce` from mm.c: merge the block headed at `h` with a free
structural successor and then a free structural predecessor (one hop
each); returns the new state and the (possibly moved) header address,
mirroring the by-reference `header_ptr` parameter. -/
def mm_coalesce (s : Heap) (h : Nat) : Heap × Nat :=
  let endhi := mem_heap_hi s
  let next_header := h + andm2 (read s h)
  let s1 :=
    if next_header < endhi ∧ (read s next_header) % 2 = 0 then
      let sA := remove_link s next_header
      let sB := write sA h (read sA h + andm2 (read sA next_header))
      write sB (next_header + andm2 (read sB next_header) - 8) (read sB h)
    else s
  let footer := h + andm2 (read s1 h) - 8
  let prev_footer := footer - andm2 (read s1 footer)
  if prev_footer ≤ 208 then (s1, h)
  else
    let prev_header := prev_footer - andm2 (read s1 prev_footer) + 8
    if (read s1 prev_header) % 2 = 0 then
      let s2 := remove_link s1 prev_header
      let s3 := write s2 prev_header (read s2 prev_header + andm2 (read s2 h))
      let s4 := write s3 footer (read s3 prev_header)
      (s4, prev_header)
    else (s1, h)

/-- `mm_free` from mm.c.  The returned boolean records whether the
"attempting to free a free block" warning was printed (in which case the
state is returned untouched). -/
def mm_free (s : Heap) (ptr : Nat) : Heap × Bool :=
  let h := ptr - 8
  if (read s h) % 2 = 0 then (s, true)
  else
    let c := mm_coalesce s h
    let s2 := add_to_list c.1 c.2
    (write s2 c.2 (andm2 (read s2 c.2)), false)

/-- `mm_realloc` from mm.c.  Returns the new state and the returned
pointer (0 for `NULL`). -/
def mm_realloc (s : Heap) (ptr req : Nat) : Heap × Nat :=
  let newsize0 := align8 (req + 2 * 8)
  let newsize := if newsize0 < align8 (4 * 8) then align8 (4 * 8) else newsize0
  let header := ptr - 8
  let current_size := andm2 (read s header)
  if current_size < newsize then
    let endhi := mem_heap_hi s
    let next_header := header + current_size
    let prev_footer := header - 8
    if 208 ≤ prev_footer ∧ next_header ≤ endhi ∧ (read s next_header) % 2 = 0 ∧
        (read s prev_footer) % 2 = 0 ∧
        newsize ≤ andm2 (read s next_header) + current_size + andm2 (read s prev_footer) then
      let new_free_size :=
        usub64 (andm2 (read s next_header) + current_size + andm2 (read s prev_footer)) newsize
      let s1 := remove_link s next_header
      let prev_header := prev_footer - andm2 (read s1 prev_footer) + 8
      let s2 := remove_link s1 prev_header
      if new_free_size < 32 then
        let newsize2 := new_free_size + newsize
        let s3 := memmove s2 (prev_header + 8) ptr (usub64 current_size 8)
        let s4 := write s3 prev_header (orOne newsize2)
        let s5 := write s4 (prev_header + andm2 (read s4 prev_header) - 8) (orOne newsize2)
        (s5, prev_header + 8)
      else
        let nh := next_header + andm2 (read s2 next_header) - newsize
        let s3 := memmove s2 (nh + 8) ptr (usub64 current_size 8)
        let s4 := write s3 nh (orOne newsize)
        let s5 := write s4 (nh + andm2 (read s4 nh) - 8) (orOne newsize)
        let s6 := write s5 prev_header (andm2 new_free_size)
        let s7 := write s6 (prev_header + andm2 (read s6 prev_header) - 8) (andm2 new_free_size)
        let s8 := add_to_list s7 prev_header
        (s8, nh + 8)
    else if next_header ≤ endhi ∧ (read s next_header) % 2 = 0 ∧
        newsize ≤ andm2 (read s next_header) + current_size then
      let s1 := remove_link s next_header
      if usub64 (andm2 (read s1 next_header) + current_size) newsize < 32 then
        let nh := orOne (andm2 (read s1 next_header) + current_size)
        let s2 := write s1 header nh
        let s3 := write s2 (header + andm2 (read s2 header) - 8) nh
        (s3, ptr)
      else
        let header_tmp := usub64 (andm2 (read s1 next_header) + current_size) newsize
        let fbh := header + newsize
        let s2 := write s1 fbh header_tmp
        let s3 := write s2 (fbh + andm2 (read s2 fbh) - 8) header_tmp
        let s4 := add_to_list s3 fbh
        let s5 := write s4 header (orOne newsize)
        let s6 := write s5 (header + andm2 (read s5 header) - 8) (orOne newsize)
        let s7 := (mm_coalesce s6 fbh).1
        (s7, ptr)
    else if 208 ≤ prev_footer ∧ (read s prev_footer) % 2 = 0 ∧
        newsize ≤ andm2 (read s prev_footer) + current_size then
      let prev_header := prev_footer - andm2 (read s prev_footer) + 8
      let s1 := remove_link s prev_header
      let available := andm2 (read s1 prev_footer) + current_size
      let nfs := usub64 available newsize
      if nfs < 32 then
        let s2 := memmove s1 (prev_header + 8) ptr (usub64 current_size 8)
        let s3 := write s2 prev_header (orOne available)
        let s4 := write s3 (prev_header + andm2 (read s3 prev_header) - 8) (orOne available)
        (s4, prev_header + 8)
      else
        let nh := header + current_size - newsize
        let s2 := memmove s1 (nh + 8) ptr (usub64 current_size 8)
        let s3 := write s2 nh (orOne newsize)
        let s4 := write s3 (nh + andm2 (read s3 nh) - 8) (orOne newsize)
        let s5 := write s4 prev_header (andm2 nfs)
        let s6 := write s5 (prev_header + andm2 (read s5 prev_header) - 8) (andm2 nfs)
        let s7 := add_to_list s6 prev_header
        (s7, nh + 8)
    else if ¬ next_header ≤ endhi then
      if 208 ≤ prev_footer ∧ (read s prev_footer) % 2 = 0 then
        let prev_header := prev_footer - andm2 (read s prev_footer) + 8
        let s1 := remove_link s prev_header
        let s2 := memmove s1 (prev_header + 8) ptr (usub64 current_size 8)
        let addition := usub64 newsize (current_size + andm2 (read s2 prev_header))
        let r := mem_sbrk s2 (addition : Int)
        if r.2 = 0 then (r.1, 0)
        else
          let s3 := write r.1 prev_header (orOne newsize)
          let s4 := write s3 (prev_header + andm2 (read s3 prev_header) - 8) (orOne newsize)
          (s4, ptr)
      else
        let addition := usub64 newsize current_size
        let r := mem_sbrk s (addition : Int)
        if r.2 = 0 then (r.1, 0)
        else
          let s3 := write r.1 header (orOne newsize)
          let s4 := write s3 (header + andm2 (read s3 header) - 8) (orOne newsize)
          (s4, ptr)
    else
      let mr := mm_malloc s newsize
      let s2 := memmove mr.1 mr.2 ptr (usub64 current_size 2)
      let s3 := (mm_free s2 ptr).1
      (s3, mr.2)
  else
    if 32 < usub64 current_size newsize then
      let s1 := write s header (orOne newsize)
      let fo := header + andm2 (read s1 header) - 8
      let s2 := write s1 fo (orOne newsize)
      let fbh := fo + 8
      let s3 := write s2 fbh (usub64 current_size newsize)
      let s4 := write s3 (fbh + andm2 (read s3 fbh) - 8) (usub64 current_size newsize)
      let s5 := add_to_list s4 fbh
      let s6 := (mm_coalesce s5 fbh).1
      (s6, ptr)
    else (s, ptr)

/-- Fresh provider state: empty heap, all memory cells zero, growth limit `lim`. -/
def heap0 (lim : Nat) : Heap := { mem := fun _ => 0, size := 0, limit := lim }

/-- State after `mm_init` on a fresh heap with growth limit `lim`. -/
def initState (lim : Nat) : Heap := (mm_init (heap0 lim)).1

/-- Trace A, step 1: `p1 = mm_malloc(16)` after `mm_init`. -/
def tA1 : Heap × Nat := mm_malloc (initState 1000) 16

/-- Trace A, step 2: `p2 = mm_malloc(16)`. -/
def tA2 : Heap × Nat := mm_malloc tA1.1 16

/-- Trace A, step 3: `mm_free(p1)`. -/
def tA3 : Heap := (mm_free tA2.1 tA1.2).1

/-- Trace A, step 4: `p3 = mm_malloc(16)`. -/
def tA4 : Heap × Nat := mm_malloc tA3 16

/-- Trace B: `mm_init(); p = mm_malloc(16); mm_free(p)` — a single block,
freed with no coalescible neighbour. -/
def tB : Heap := (mm_free tA1.1 tA1.2).1

/-- Trace C, step 1: `pa = mm_malloc(24)` (block of size 40 at 208). -/
def tC1 : Heap × Nat := mm_malloc (initState 1000) 24

/-- Trace C, step 2: `pb = mm_malloc(16)`. -/
def tC2 : Heap × Nat := mm_malloc tC1.1 16

/-- Trace C, step 3: `pc = mm_malloc(16)`. -/
def tC3 : Heap × Nat := mm_malloc tC2.1 16

/-- Trace C, step 4: `pd = mm_malloc(16)`. -/
def tC4 : Heap × Nat := mm_malloc tC3.1 16

/-- Trace C, step 5: `mm_free(pa)` — frees the 40-byte block. -/
def tC5 : Heap := (mm_free tC4.1 tC1.2).1

/-- Trace C, step 6: `mm_free(pc)`. -/
def tC6 : Heap := (mm_free tC5 tC3.2).1

/-- Trace C, step 7: `pe = mm_malloc(16)` (reuses a 32-byte free block). -/
def tC7 : Heap × Nat := mm_malloc tC6 16

/-- Trace C, step 8: `pf = mm_malloc(16)` (reuses the other 32-byte block,
leaving the 40-byte block alone as bucket head). -/
def tC8 : Heap × Nat := mm_malloc tC7.1 16

/-- Trace C, step 9: `mm_free(pe)` — inserts a 32-byte block into the
bucket whose head is the 40-byte block. -/
def tC9 : Heap := (mm_free tC8.1 tC7.2).1

/-- Trace D, step 1: `a = mm_malloc(100)` (block of size 120 at 208). -/
def tD1 : Heap × Nat := mm_malloc (initState 1000) 100

/-- Trace D, step 2: `b = mm_malloc(48)` (block of size 64 at 328, plus a
pre-emptive free second half of size 64 at 392). -/
def tD2 : Heap × Nat := mm_malloc tD1.1 48

/-- Trace D, step 3: `mm_free(b)` — coalesces forward into a 128-byte free
block at 328 (bucket 2). -/
def tD3 : Heap := (mm_free tD2.1 tD2.2).1

/-- Trace D, step 4: `mm_realloc(a, 10)` — shrink splits off a tail of size
88 (inserted into bucket 1), which then coalesces forward with the
128-byte block while staying in bucket 1. -/
def tD4 : Heap × Nat := mm_realloc tD3 tD1.2 10

/-- Trace R after `mm_init`: three `mm_malloc(100)` calls (the third reuses
the pre-emptive free half at 448, so its block [448,568) is last), then
`mm_realloc(336,10)` shrinks the middle block, leaving a free 88-byte
block at 360 directly before the last block.  Parametrised by the
provider limit: the trace up to here needs exactly 560 bytes. -/
def rstep4 (lim : Nat) : Heap × Nat :=
  mm_realloc (mm_malloc (mm_malloc (mm_malloc (initState lim) 100).1 100).1 100).1 336 10

/-- Trace R, final step: `mm_realloc(456, 200)` — grows the last block,
whose previous neighbour is free, taking the heap-end path of
`mm_realloc` (merge previous block, move payload, extend by 8). -/
def rstep5 (lim : Nat) : Heap × Nat := mm_realloc (rstep4 lim).1 456 200

/-- Trace E, step 1 (continuing trace D): `c = mm_malloc(100)`.  The
free-list lookup legitimately finds the mis-bucketed free 216-byte block
at 240 in bucket 1, but `remove_link` computes the bucket from the
block's current size (216, bucket 2) and so clears the wrong slot:
bucket 1's head keeps pointing at 240, which is now allocated. -/
def tE1 : Heap × Nat := mm_malloc tD4.1 100

/-- Trace E, step 2: `d = mm_malloc(16)`.  The stale bucket-1 head hands
out the live block at 240 a second time (same payload pointer 248) and
the split writes a free 88-byte block at 272 — directly before the free
96-byte block at 360. -/
def tE2 : Heap × Nat := mm_malloc tE1.1 16

/-- Trace E, step 3: `mm_free(a)` — a deallocate of a valid live pointer
(the block [208,240) from the first allocation, kept by the shrink).  It
coalesces nothing (its neighbour at 240 is allocated), leaving the
address-adjacent free blocks at 272 and 360 in the heap. -/
def tE3 : Heap := (mm_free tE2.1 tD1.2).1

/-- Witness heap: one allocated 32-byte block [208,240) at the end of a
232-byte heap, all free-list buckets empty, provider limit 1000. -/
def witBlock : Heap :=
  { mem := fun a => if a = 208 then 33 else if a = 232 then 33 else 0,
    size := 232, limit := 1000 }

/-- Witness heap with a tight provider limit: as `witBlock` but the
provider refuses any further growth. -/
def witBlockTight : Heap :=
  { mem := fun a => if a = 208 then 33 else if a = 232 then 33 else 0,
    size := 232, limit := 232 }

/-- Witness heap for the insert-after-head lemma: bucket 0 holds the single
free block [208,248) of size 40; the free block at 240 (size 32) is about
to be inserted into the same bucket. -/
def witInsert : Heap :=
  { mem := fun a =>
      if a = 8 then 208 else if a = 208 then 40 else if a = 240 then 32 else 0,
    size := 240, limit := 1000 }

/-- Witness heap for the coalesce lemma: free block [240,328) of size 88 is
the sole entry of bucket 1, its structural successor [328,456) of size 128
is the sole entry of bucket 2, and the block before 240 is allocated
(header 33 at 208, footer 33 at 232). -/
def witCoalesce : Heap :=
  { mem := fun a =>
      if a = 16 then 240 else if a = 24 then 328 else if a = 208 then 33
      else if a = 232 then 33 else if a = 240 then 88 else if a = 328 then 128 else 0,
    size := 448, limit := 1000 }

theorem read_write_self (s : Heap) (a v : Nat) : read (write s a v) a = v := by
  simp [read, write]

theorem read_write_of_ne (s : Heap) (a v x : Nat) (h : x ≠ a) :
    read (write s a v) x = read s x := by
  simp [read, write, h]

theorem read_write (s : Heap) (a v x : Nat) :
    read (write s a v) x = if x = a then v else read s x := by
  simp [read, write]

theorem read_setSize (s : Heap) (n x : Nat) : read { s with size := n } x = read s x := rfl

theorem write_size (s : Heap) (a v : Nat) : (write s a v).size = s.size := rfl

theorem usub64_of_le (a b : Nat) (h : b ≤ a) : usub64 a b = a - b := by
  simp [usub64, h]

theorem seglist_index_le (n : Nat) : seglist_index n ≤ 24 := by
  unfold seglist_index
  split
  · omega
  · split <;> omega

theorem align8_mod (n : Nat) : align8 n % 8 = 0 := by
  unfold align8
  omega

theorem add_to_list_empty (s : Heap) (ptr : Nat)
    (h : read s (8 + 8 * seglist_index (andm2 (read s ptr))) = 0) :
    add_to_list s ptr =
      write (write (write s (8 + 8 * seglist_index (andm2 (read s ptr))) ptr)
        (ptr + 8) 0) (ptr + 16) 0 := by
  simp only [add_to_list]
  rw [if_pos h]

/-- C5 (amended, provable part): on `mm_malloc`'s fresh-extension path —
no free-list candidate, last block's footer marked allocated, request
above the fragmentation threshold — a refused extension is atomic: the
call returns the null failure result with the state completely unchanged.
(The counterexample shows the reallocate heap-end path is not atomic.) -/
theorem c5_amended (s : Heap) (r : Nat)
    (hbig : 400 < align8 (r + 2 * 8))
    (hopt : get_optimal_free_block s (align8 (r + 2 * 8)) = 0)
    (hodd : (read s (mem_heap_hi s - (8 - 1))) % 2 = 1)
    (hlim : (s.limit : Int) < (s.size : Int) + (align8 (r + 2 * 8) : Int)) :
    mm_malloc s r = (s, 0) := by
  have hr : r ≠ 0 := by
    intro h0
    subst h0
    unfold align8 at hbig
    omega
  have h32 : ¬ (align8 (r + 2 * 8) < align8 (4 * 8)) := by
    unfold align8 at hbig ⊢
    omega
  simp only [mm_malloc]
  rw [if_neg hr, if_neg h32, hopt]
  rw [if_neg (by simp)]
  rw [if_neg (by rintro ⟨-, h2⟩; omega)]
  rw [if_pos hbig]
  simp only [mem_sbrk]
  rw [if_pos (Or.inr hlim)]
  simp

/-- Witness for C5's amended theorem: a 232-byte heap whose single block
is allocated and whose provider refuses to grow returns null from
`mm_malloc 500` with the state unchanged. -/
theorem c5_amended_witness : mm_malloc witBlockTight 500 = (witBlockTight, 0) :=
  c5_amended witBlockTight 500 (by decide) (by decide) (by decide) (by decide)

/-- C7 (amended, provable part): for an allocation where no free-list
candidate fits, the heap's block region is nonempty, and the last block's
footer carries the allocated flag, if the adjusted size `need` is at or
below the 400-byte threshold the heap is extended by exactly `2 × need`,
the first half becomes the allocated block whose payload is returned, and
the second half is written as a free block and inserted (as head) into
its free-list bucket.  (The counterexample shows the claim's other
premise — an empty block region — instead takes the path that extends by
`need` only.) -/
theorem c7_amended (s : Heap) (r need : Nat)
    (hneed : need =
      if align8 (r + 2 * 8) < align8 (4 * 8) then align8 (4 * 8) else align8 (r + 2 * 8))
    (h200 : 200 ≤ s.size)
    (hr : r ≠ 0)
    (hthr : need ≤ 400)
    (hopt : get_optimal_free_block s need = 0)
    (hodd : (read s (mem_heap_hi s - (8 - 1))) % 2 = 1)
    (hlim : s.size + 2 * need ≤ s.limit)
    (hslot : read s (8 + 8 * seglist_index need) = 0) :
    (mm_malloc s r).2 = 8 + s.size + 8 ∧
    (mm_malloc s r).1.size = s.size + 2 * need ∧
    read (mm_malloc s r).1 (8 + s.size) = need + 1 ∧
    read (mm_malloc s r).1 (8 + s.size + need - 8) = need + 1 ∧
    read (mm_malloc s r).1 (8 + s.size + need) = need ∧
    read (mm_malloc s r).1 (8 + s.size + need + need - 8) = need ∧
    read (mm_malloc s r).1 (8 + 8 * seglist_index need) = 8 + s.size + need ∧
    read (mm_malloc s r).1 (8 + s.size + need + 8) = 0 ∧
    read (mm_malloc s r).1 (8 + s.size + need + 16) = 0 := by
  have hfacts : 32 ≤ need ∧ need % 8 = 0 := by
    rw [hneed]
    split
    · unfold align8; omega
    · unfold align8 at *; omega
  obtain ⟨h32, h8⟩ := hfacts
  have horone : orOne need = need + 1 := by
    unfold orOne
    rw [if_pos (by omega)]
  have handm1 : andm2 (need + 1) = need := by unfold andm2; omega
  have handm0 : andm2 need = need := by unfold andm2; omega
  have hidx := seglist_index_le need
  have hr3 : read (write (write { s with size := s.size + 2 * need }
      (8 + s.size + need) need) (8 + s.size + need + need - 8) need)
      (8 + s.size + need) = need := by
    rw [read_write_of_ne _ _ _ _ (by omega), read_write_self]
  have hmain : mm_malloc s r =
      (write (write (write (write (write (write (write
        { s with size := s.size + 2 * need }
        (8 + s.size + need) need)
        (8 + s.size + need + need - 8) need)
        (8 + 8 * seglist_index need) (8 + s.size + need))
        (8 + s.size + need + 8) 0)
        (8 + s.size + need + 16) 0)
        (8 + s.size) (need + 1))
        (8 + s.size + need - 8) (need + 1),
       8 + s.size + 8) := by
    simp only [mm_malloc]
    rw [if_neg hr, ← hneed, hopt]
    rw [if_neg (show ¬ ((0 : Nat) ≠ 0) by simp)]
    rw [if_neg (show ¬ (s.size ≠ 0 ∧ (read s (mem_heap_hi s - (8 - 1))) % 2 = 0) by
      rintro ⟨-, h2⟩; omega)]
    rw [if_neg (show ¬ (400 < need) by omega)]
    simp only [mem_sbrk]
    rw [if_neg (show ¬ (((2 * need : Nat) : Int) < 0 ∨
        (s.limit : Int) < (s.size : Int) + ((2 * need : Nat) : Int)) by omega)]
    dsimp only
    simp only [Int.toNat_natCast]
    rw [if_neg (show ¬ (8 + s.size = 0) by omega)]
    rw [horone, handm1]
    rw [show read (write { s with size := s.size + 2 * need } (8 + s.size + need) need)
        (8 + s.size + need) = need from read_write_self _ _ _]
    rw [handm0]
    rw [add_to_list_empty _ _ (by
      rw [hr3, handm0, read_write_of_ne _ _ _ _ (by omega),
        read_write_of_ne _ _ _ _ (by omega), read_setSize]
      exact hslot)]
    rw [hr3, handm0]
    rw [show read (write (write (write (write (write (write
          { s with size := s.size + 2 * need }
          (8 + s.size + need) need) (8 + s.size + need + need - 8) need)
          (8 + 8 * seglist_index need) (8 + s.size + need)) (8 + s.size + need + 8) 0)
          (8 + s.size + need + 16) 0) (8 + s.size) (need + 1)) (8 + s.size)
        = need + 1 from read_write_self _ _ _]
    rw [handm1]
  rw [hmain]
  dsimp only
  refine ⟨rfl, ?_, ?_, ?_, ?_, ?_, ?_, ?_, ?_⟩
  · simp [write_size]
  · rw [read_write_of_ne _ _ _ _ (by omega), read_write_self]
  · rw [read_write_self]
  · rw [read_write_of_ne _ _ _ _ (by omega), read_write_of_ne _ _ _ _ (by omega),
      read_write_of_ne _ _ _ _ (by omega), read_write_of_ne _ _ _ _ (by omega),
      read_write_of_ne _ _ _ _ (by omega), read_write_of_ne _ _ _ _ (by omega),
      read_write_self]
  · rw [read_write_of_ne _ _ _ _ (by omega), read_write_of_ne _ _ _ _ (by omega),
      read_write_of_ne _ _ _ _ (by omega), read_write_of_ne _ _ _ _ (by omega),
      read_write_of_ne _ _ _ _ (by omega), read_write_self]
  · rw [read_write_of_ne _ _ _ _ (by omega), read_write_of_ne _ _ _ _ (by omega),
      read_write_of_ne _ _ _ _ (by omega), read_write_of_ne _ _ _ _ (by omega),
      read_write_self]
  · rw [read_write_of_ne _ _ _ _ (by omega), read_write_of_ne _ _ _ _ (by omega),
      read_write_of_ne _ _ _ _ (by omega), read_write_self]
  · rw [read_write_of_ne _ _ _ _ (by omega), read_write_of_ne _ _ _ _ (by omega),
      read_write_self]

/-- Witness for C7's amended theorem: on a 232-byte heap whose single
block is allocated (footer 33 at the end) and whose buckets are empty, a
`mm_malloc 16` (need = 32) extends the heap to 232 + 64 bytes, returns
the payload at 248, and installs the second half [272,304) as the free
head of bucket 0. -/
theorem c7_amended_witness :
    (mm_malloc witBlock 16).2 = 8 + witBlock.size + 8 ∧
    (mm_malloc witBlock 16).1.size = witBlock.size + 2 * 32 ∧
    read (mm_malloc witBlock 16).1 (8 + witBlock.size) = 32 + 1 ∧
    read (mm_malloc witBlock 16).1 (8 + witBlock.size + 32 - 8) = 32 + 1 ∧
    read (mm_malloc witBlock 16).1 (8 + witBlock.size + 32) = 32 ∧
    read (mm_malloc witBlock 16).1 (8 + witBlock.size + 32 + 32 - 8) = 32 ∧
    read (mm_malloc witBlock 16).1 (8 + 8 * seglist_index 32) = 8 + witBlock.size + 32 ∧
    read (mm_malloc witBlock 16).1 (8 + witBlock.size + 32 + 8) = 0 ∧
    read (mm_malloc witBlock 16).1 (8 + witBlock.size + 32 + 16) = 0 :=
  c7_amended witBlock 16 32 (by decide) (by decide) (by decide) (by decide)
    (by decide) (by decide) (by decide) (by decide)

/-- C4 (amended, provable part): `add_to_list` classifies the new block by
size, but its walk compares the next entry's pointer value (low bit
cleared) — not the next entry's size — against the new block's size, and
links the new block immediately after the position where the walk stops.
In particular, inserting into a bucket whose head has no successor places
the new block directly after the head even when the new block is smaller:
afterwards the head is a larger block than its successor, so the bucket
is not sorted ascending by size. -/
theorem c4_amended (s : Heap) (b h : Nat)
    (hsz : 200 ≤ s.size)
    (hb : 208 ≤ b) (hh : 208 ≤ h)
    (hhead : read s (8 + 8 * seglist_index (andm2 (read s b))) = h)
    (hnext : read s (h + 8) = 0)
    (hne1 : b ≠ h) (hne2 : h ≠ b + 8) (hne3 : h ≠ b + 16)
    (hne4 : b ≠ h + 8) (hne5 : b ≠ h + 16)
    (hlt : andm2 (read s b) < andm2 (read s h)) :
    read (add_to_list s b) (8 + 8 * seglist_index (andm2 (read s b))) = h ∧
    read (add_to_list s b) (h + 8) = b ∧
    read (add_to_list s b) (b + 8) = 0 ∧
    read (add_to_list s b) (b + 16) = h ∧
    read (add_to_list s b) b = read s b ∧
    read (add_to_list s b) h = read s h ∧
    andm2 (read (add_to_list s b) b) < andm2 (read (add_to_list s b) h) := by
  have hidx := seglist_index_le (andm2 (read s b))
  have hfs : findSlot s (andm2 (read s b)) s.size h = h := by
    obtain ⟨k, hk⟩ : ∃ k, s.size = k + 1 := ⟨s.size - 1, by omega⟩
    rw [hk]
    simp only [findSlot]
    rw [if_neg (show ¬ (read s (h + 8) ≠ 0 ∧ andm2 (read s (h + 8)) < andm2 (read s b))
      from by rw [hnext]; simp)]
  have hmain : add_to_list s b = write (write (write s (b + 8) 0) (b + 16) h) (h + 8) b := by
    simp only [add_to_list]
    rw [if_neg (show ¬ (read s (8 + 8 * seglist_index (andm2 (read s b))) = 0)
      from by rw [hhead]; omega)]
    rw [hhead, hfs, hnext]
    rw [if_neg (show ¬ (read (write (write s (b + 8) 0) (b + 16) h) (h + 8) ≠ 0) from by
      rw [read_write_of_ne _ _ _ _ (by omega), read_write_of_ne _ _ _ _ (by omega), hnext]
      simp)]
  rw [hmain]
  refine ⟨?_, ?_, ?_, ?_, ?_, ?_, ?_⟩
  · rw [read_write_of_ne _ _ _ _ (by omega), read_write_of_ne _ _ _ _ (by omega),
      read_write_of_ne _ _ _ _ (by omega)]
    exact hhead
  · rw [read_write_self]
  · rw [read_write_of_ne _ _ _ _ (by omega), read_write_of_ne _ _ _ _ (by omega),
      read_write_self]
  · rw [read_write_of_ne _ _ _ _ (by omega), read_write_self]
  · rw [read_write_of_ne _ _ _ _ (by omega), read_write_of_ne _ _ _ _ (by omega),
      read_write_of_ne _ _ _ _ (by omega)]
  · rw [read_write_of_ne _ _ _ _ (by omega), read_write_of_ne _ _ _ _ (by omega),
      read_write_of_ne _ _ _ _ (by omega)]
  · rw [read_write_of_ne _ _ _ _ (by omega), read_write_of_ne _ _ _ _ (by omega),
      read_write_of_ne _ _ _ _ (by omega), read_write_of_ne _ _ _ _ (by omega),
      read_write_of_ne _ _ _ _ (by omega), read_write_of_ne _ _ _ _ (by omega)]
    exact hlt

/-- Witness for C4's amended theorem: inserting the 32-byte free block at
240 into bucket 0, whose head is the 40-byte block at 208 with no
successor, places 240 immediately after 208 — head size 40 above
successor size 32. -/
theorem c4_amended_witness :
    read (add_to_list witInsert 240)
      (8 + 8 * seglist_index (andm2 (read witInsert 240))) = 208 ∧
    read (add_to_list witInsert 240) (208 + 8) = 240 ∧
    read (add_to_list witInsert 240) (240 + 8) = 0 ∧
    read (add_to_list witInsert 240) (240 + 16) = 208 ∧
    read (add_to_list witInsert 240) 240 = read witInsert 240 ∧
    read (add_to_list witInsert 240) 208 = read witInsert 208 ∧
    andm2 (read (add_to_list witInsert 240) 240) <
      andm2 (read (add_to_list witInsert 240) 208) :=
  c4_amended witInsert 240 208 (by decide) (by decide) (by decide) (by decide)
    (by decide) (by decide) (by decide) (by decide) (by decide) (by decide) (by decide)

/-- C8 (amended, provable part): when `mm_coalesce` forward-merges a free
block `b` that is the sole entry of its bucket with its free structural
successor (the sole entry of a different bucket), the successor's bucket
is emptied and `b`'s stored size grows to the merged size, but `b`
remains linked exactly where it was — as the head of the bucket chosen
from its pre-merge size.  When the merged size falls in a different size
class (as in the witness: 88 + 128 = 216), the free block is left in a
bucket that does not match the index computed from its current size;
this is what happens to the tail block in reallocate's shrink path, which
inserts before coalescing. -/
theorem c8_amended (s : Heap) (b bsz nsz : Nat)
    (hb : 216 ≤ b)
    (hbsz8 : bsz % 8 = 0) (hbsz : 32 ≤ bsz)
    (hnsz8 : nsz % 8 = 0) (hnsz : 32 ≤ nsz)
    (hhb : read s b = bsz)
    (hhn : read s (b + bsz) = nsz)
    (hin : b + bsz < mem_heap_hi s)
    (hn8 : read s (b + bsz + 8) = 0) (hn16 : read s (b + bsz + 16) = 0)
    (hslotb : read s (8 + 8 * seglist_index bsz) = b)
    (hslotn : read s (8 + 8 * seglist_index nsz) = b + bsz)
    (hidxne : seglist_index nsz ≠ seglist_index bsz)
    (hpf8 : 8 ≤ andm2 (read s (b - 8)))
    (hph : 208 ≤ b - 8 - andm2 (read s (b - 8)) + 8)
    (hpodd : (read s (b - 8 - andm2 (read s (b - 8)) + 8)) % 2 = 1) :
    (mm_coalesce s b).2 = b ∧
    read (mm_coalesce s b).1 b = bsz + nsz ∧
    read (mm_coalesce s b).1 (8 + 8 * seglist_index bsz) = b ∧
    read (mm_coalesce s b).1 (8 + 8 * seglist_index nsz) = 0 := by
  have hidxb := seglist_index_le bsz
  have hidxn := seglist_index_le nsz
  have handmb : andm2 bsz = bsz := by unfold andm2; omega
  have handmn : andm2 nsz = nsz := by unfold andm2; omega
  have handms : andm2 (bsz + nsz) = bsz + nsz := by unfold andm2; omega
  have hrem : remove_link s (b + bsz) = write s (8 + 8 * seglist_index nsz) 0 := by
    simp only [remove_link]
    rw [if_pos ⟨hn8, hn16⟩, hhn, handmn]
  have hrb : read (write s (8 + 8 * seglist_index nsz) 0) b = bsz := by
    rw [read_write_of_ne _ _ _ _ (by omega)]
    exact hhb
  have hrn : read (write s (8 + 8 * seglist_index nsz) 0) (b + bsz) = nsz := by
    rw [read_write_of_ne _ _ _ _ (by omega)]
    exact hhn
  have hrn2 : read (write (write s (8 + 8 * seglist_index nsz) 0) b (bsz + nsz))
      (b + bsz) = nsz := by
    rw [read_write_of_ne _ _ _ _ (by omega)]
    exact hrn
  have hrb2 : read (write (write s (8 + 8 * seglist_index nsz) 0) b (bsz + nsz)) b
      = bsz + nsz := read_write_self _ _ _
  have hrb3 : read (write (write (write s (8 + 8 * seglist_index nsz) 0) b (bsz + nsz))
      (b + bsz + nsz - 8) (bsz + nsz)) b = bsz + nsz := by
    rw [read_write_of_ne _ _ _ _ (by omega)]
    exact hrb2
  have hrf3 : read (write (write (write s (8 + 8 * seglist_index nsz) 0) b (bsz + nsz))
      (b + bsz + nsz - 8) (bsz + nsz)) (b + bsz + nsz - 8) = bsz + nsz :=
    read_write_self _ _ _
  have hmain : mm_coalesce s b =
      (write (write (write s (8 + 8 * seglist_index nsz) 0) b (bsz + nsz))
        (b + bsz + nsz - 8) (bsz + nsz), b) := by
    simp only [mm_coalesce]
    rw [if_pos (show b + andm2 (read s b) < mem_heap_hi s ∧
        (read s (b + andm2 (read s b))) % 2 = 0 from by
      rw [hhb, handmb]
      exact ⟨hin, by omega⟩)]
    rw [hhb, handmb, hrem, hrb, hrn, handmn]
    rw [show b + bsz + andm2 (read (write (write s (8 + 8 * seglist_index nsz) 0) b
        (bsz + nsz)) (b + bsz)) - 8 = b + bsz + nsz - 8 from by rw [hrn2, handmn]]
    rw [hrb2, hrb3, handms]
    rw [show b + (bsz + nsz) - 8 = b + bsz + nsz - 8 from by omega]
    rw [hrf3, handms]
    rw [show b + bsz + nsz - 8 - (bsz + nsz) = b - 8 from by omega]
    by_cases hc : b - 8 ≤ 208
    · rw [if_pos hc]
    · rw [if_neg hc]
      rw [show read (write (write (write s (8 + 8 * seglist_index nsz) 0) b (bsz + nsz))
          (b + bsz + nsz - 8) (bsz + nsz)) (b - 8) = read s (b - 8) from by
        rw [read_write_of_ne _ _ _ _ (by omega), read_write_of_ne _ _ _ _ (by omega),
          read_write_of_ne _ _ _ _ (by omega)]]
      rw [if_neg (show ¬ ((read (write (write (write s (8 + 8 * seglist_index nsz) 0) b
          (bsz + nsz)) (b + bsz + nsz - 8) (bsz + nsz))
          (b - 8 - andm2 (read s (b - 8)) + 8)) % 2 = 0) from by
        rw [read_write_of_ne _ _ _ _ (by omega), read_write_of_ne _ _ _ _ (by omega),
          read_write_of_ne _ _ _ _ (by omega)]
        omega)]
  rw [hmain]
  refine ⟨rfl, ?_, ?_, ?_⟩
  · exact hrb3
  · rw [read_write_of_ne _ _ _ _ (by omega), read_write_of_ne _ _ _ _ (by omega),
      read_write_of_ne _ _ _ _ (by omega)]
    exact hslotb
  · rw [read_write_of_ne _ _ _ _ (by omega), read_write_of_ne _ _ _ _ (by omega),
      read_write_self]

/-- Witness for C8's amended theorem: coalescing the 88-byte bucket-1 head
at 240 with its free 128-byte successor at 328 (bucket 2) leaves the
block at 240 as head of bucket 1 carrying size 216, and empties bucket 2;
`seglist_index 216 = 2 ≠ 1 = seglist_index 88`, so the block's bucket no
longer matches its size. -/
theorem c8_amended_witness :
    ((mm_coalesce witCoalesce 240).2 = 240 ∧
    read (mm_coalesce witCoalesce 240).1 240 = 88 + 128 ∧
    read (mm_coalesce witCoalesce 240).1 (8 + 8 * seglist_index 88) = 240 ∧
    read (mm_coalesce witCoalesce 240).1 (8 + 8 * seglist_index 128) = 0) ∧
    seglist_index (88 + 128) ≠ seglist_index 88 :=
  ⟨c8_amended witCoalesce 240 88 128 (by decide) (by decide) (by decide) (by decide)
    (by decide) (by decide) (by decide) (by decide) (by decide) (by decide)
    (by decide) (by decide) (by decide) (by decide) (by decide) (by decide),
   by decide⟩

/-- C2 (amended, provable part): when `mm_free` frees an allocated block
with no coalescible neighbour (here: the last block of the heap, with a
non-free predecessor), header and footer still agree on the size, but the
allocated flags now disagree: the header flag is cleared while the footer
keeps the allocated bit, because `mm_free` updates only the header. -/
theorem c2_amended (s : Heap) (h sz : Nat)
    (hsz8 : sz % 8 = 0) (hsz : 32 ≤ sz)
    (hhd : read s h = sz + 1)
    (hft : read s (h + sz - 8) = sz + 1)
    (hlast : h + sz = 8 + s.size)
    (hlo : 208 ≤ h)
    (hprev : h ≤ 216 ∨ (read s ((h - 8) - andm2 (read s (h - 8)) + 8)) % 2 = 1)
    (hslot : read s (8 + 8 * seglist_index sz) = 0) :
    read (mm_free s (h + 8)).1 h = sz ∧
    read (mm_free s (h + 8)).1 (h + sz - 8) = sz + 1 ∧
    andm2 (read (mm_free s (h + 8)).1 h) = andm2 (read (mm_free s (h + 8)).1 (h + sz - 8)) ∧
    (read (mm_free s (h + 8)).1 h) % 2 = 0 ∧
    (read (mm_free s (h + 8)).1 (h + sz - 8)) % 2 = 1 ∧
    (mm_free s (h + 8)).2 = false := by
  have handm : andm2 (sz + 1) = sz := by unfold andm2; omega
  have hidx := seglist_index_le sz
  have hcond : ¬ (h + andm2 (read s h) < mem_heap_hi s ∧
      (read s (h + andm2 (read s h))) % 2 = 0) := by
    rw [hhd, handm]
    rintro ⟨h1, -⟩
    unfold mem_heap_hi at h1
    omega
  have hco : mm_coalesce s h = (s, h) := by
    simp only [mm_coalesce]
    rw [if_neg hcond, hhd, handm, hft, handm]
    rw [show h + sz - 8 - sz = h - 8 by omega]
    by_cases hc : h - 8 ≤ 208
    · rw [if_pos hc]
    · rw [if_neg hc]
      rcases hprev with hp | hp
      · omega
      · rw [if_neg (by omega)]
  have hco1 : (mm_coalesce s h).1 = s := by rw [hco]
  have hco2 : (mm_coalesce s h).2 = h := by rw [hco]
  simp only [mm_free, Nat.add_sub_cancel, hhd]
  rw [if_neg (by omega)]
  rw [hco1, hco2]
  rw [add_to_list_empty _ _ (by rw [hhd, handm]; exact hslot)]
  rw [hhd, handm]
  rw [show read (write (write (write s (8 + 8 * seglist_index sz) h) (h + 8) 0) (h + 16) 0) h
        = sz + 1 by
    rw [read_write_of_ne _ _ _ _ (by omega), read_write_of_ne _ _ _ _ (by omega),
      read_write_of_ne _ _ _ _ (by omega), hhd]]
  refine ⟨?_, ?_, ?_, ?_, ?_, rfl⟩
  · rw [read_write_self]
    unfold andm2; omega
  · rw [read_write_of_ne _ _ _ _ (by omega), read_write_of_ne _ _ _ _ (by omega),
      read_write_of_ne _ _ _ _ (by omega), read_write_of_ne _ _ _ _ (by omega), hft]
  · rw [read_write_self, read_write_of_ne _ _ _ _ (by omega),
      read_write_of_ne _ _ _ _ (by omega), read_write_of_ne _ _ _ _ (by omega),
      read_write_of_ne _ _ _ _ (by omega), hft]
    unfold andm2; omega
  · rw [read_write_self]
    unfold andm2; omega
  · rw [read_write_of_ne _ _ _ _ (by omega), read_write_of_ne _ _ _ _ (by omega),
      read_write_of_ne _ _ _ _ (by omega), read_write_of_ne _ _ _ _ (by omega), hft]
    omega

/-- Witness for C2's amended theorem: freeing the single 32-byte block of
`witBlock` leaves header 32 (size 32, free) and footer 33 (size 32,
allocated) — equal sizes, diverging flags. -/
theorem c2_amended_witness :
    read (mm_free witBlock (208 + 8)).1 208 = 32 ∧
    read (mm_free witBlock (208 + 8)).1 (208 + 32 - 8) = 32 + 1 ∧
    andm2 (read (mm_free witBlock (208 + 8)).1 208) =
      andm2 (read (mm_free witBlock (208 + 8)).1 (208 + 32 - 8)) ∧
    (read (mm_free witBlock (208 + 8)).1 208) % 2 = 0 ∧
    (read (mm_free witBlock (208 + 8)).1 (208 + 32 - 8)) % 2 = 1 ∧
    (mm_free witBlock (208 + 8)).2 = false :=
  c2_amended witBlock 208 32 (by decide) (by decide) (by decide) (by decide)
    (by decide) (by decide) (Or.inl (by decide)) (by decide)

/-- C10 (confirmed): `mm_init` never returns its failure result when the
heap base address is non-null (in the model the base is the constant 8):
the result of the initial `mem_sbrk` that claims the bucket array's
storage is never examined, so even a refused extension (any `s.limit`,
including one below the 200 bytes requested) is not reported — the return
value is always 1. -/
theorem c10_init_never_fails (s : Heap) : (mm_init s).2 = 1 := by
  simp [mm_init]

/-- C6 (confirmed): `mm_free` on a pointer whose block header is already
marked free reports the violation (the warning branch, recorded by the
boolean) and aborts with the heap and the free-list index completely
unchanged. -/
theorem c6_double_free_reported (s : Heap) (ptr : Nat)
    (h : (read s (ptr - 8)) % 2 = 0) : mm_free s ptr = (s, true) := by
  simp [mm_free, h]

/-- Witness for C6: freeing a pointer into an all-zero (hence "free")
heap region triggers the warning and changes nothing. -/
theorem c6_witness : mm_free (heap0 5) 216 = (heap0 5, true) :=
  c6_double_free_reported (heap0 5) 216 (by decide)

/-- C3 (counterexample): in the trace `init; p1=allocate(16);
p2=allocate(16); deallocate(p1); p3=allocate(16)` the code returns
p3 = 280 while p1 = 216: p3 ≠ p1, refuting the claim that the freed
block p1 is the one reused.  (The second allocation's pre-emptive
second-half free block sits at the head of the bucket and is found
first.) -/
theorem c3_counterexample : tA1.2 = 216 ∧ tA4.2 = 280 ∧ tA4.2 ≠ tA1.2 := by
  decide

/-- C3 (amended): in Scenario A the third allocation does reuse a free
block without growing the heap, but it is the pre-emptive second-half
block created by the second allocation (at `p2 + 32`, the head of the
bucket), not p1's block. -/
theorem c3_amended :
    tA4.2 = tA2.2 + 32 ∧ tA4.1.size = tA3.size ∧ read tA3 8 = 272 ∧
    tA4.2 = 272 + 8 := by
  decide

/-- C2 (counterexample): after `init; p=allocate(16); deallocate(p)` the
heap's single block [208,240) has header 32 (size 32, flag free) but
footer 33 (size 32, flag allocated): the sizes agree but the allocated
flags of header and footer disagree at an observable point — `mm_free`
clears the flag only in the header. -/
theorem c2_counterexample :
    tB.size = 232 ∧ read tB 208 = 32 ∧ read tB 232 = 33 ∧
    andm2 (read tB 208) = andm2 (read tB 232) ∧
    (read tB 208) % 2 ≠ (read tB 232) % 2 := by
  decide

/-- C7 (counterexample): directly after `mm_init` the block region is
empty and no free-list candidate exists, and the adjusted request size 32
is below the threshold of 400; the claim demands an extension by exactly
2×32 = 64, but the code reads the last seglist slot (value 0) as a free
last block's footer and extends the heap by only 32 (200 → 232, not 264). -/
theorem c7_counterexample :
    (initState 1000).size = 200 ∧ get_optimal_free_block (initState 1000) 32 = 0 ∧
    (mm_malloc (initState 1000) 16).1.size = 232 ∧
    (mm_malloc (initState 1000) 16).1.size ≠ 200 + 2 * 32 := by
  decide

/-- C4 (counterexample): in trace C the final operation is a deallocate
whose insert places the 32-byte block 344 immediately after the bucket
head 208, a 40-byte block: bucket 0 then lists sizes (40, 32), which is
not ascending — the insert does not keep buckets sorted by size. -/
theorem c4_counterexample :
    read tC9 8 = 208 ∧ read tC9 (208 + 8) = 344 ∧
    andm2 (read tC9 208) = 40 ∧ andm2 (read tC9 344) = 32 ∧
    ¬ andm2 (read tC9 208) ≤ andm2 (read tC9 344) := by
  decide

/-- C8 (counterexample): in trace D the reallocate shrink inserts the
88-byte tail into bucket 1 (`seglist_index 88 = 1`) and then coalesces it
forward into a 216-byte free block without re-bucketing: the free block at
240 has size 216 (`seglist_index 216 = 2`) yet is still the head of
bucket 1, while bucket 2 is empty — its bucket does not match the index
computed from its current size. -/
theorem c8_counterexample :
    read tD4.1 16 = 240 ∧ (read tD4.1 240) % 2 = 0 ∧
    andm2 (read tD4.1 240) = 216 ∧ seglist_index 216 = 2 ∧
    seglist_index 88 = 1 ∧ read tD4.1 24 = 0 ∧ read tD4.1 (240 + 8) = 0 := by
  decide

/-- C5 (counterexample): with provider limit 560, trace R's final
`mm_realloc(456, 200)` takes the heap-end path with a free previous
block: it unlinks that block from bucket 1 (slot 16 goes from 360 to 0)
and moves the payload before asking the provider, which refuses; the call
returns the failure result 0, but the free-list index has already been
mutated — failure is not atomic. -/
theorem c5_counterexample :
    (rstep5 560).2 = 0 ∧ read (rstep4 560).1 16 = 360 ∧
    read (rstep5 560).1 16 = 0 := by
  decide

/-- C9 (code bug, evaluation at the failing input): in trace E every
deallocate is applied to a valid live pointer, yet after the final
deallocate the heap walk is 208 (size 32, free) → 240 (size 32,
allocated) → 272 (size 88, free) → 360 (size 96, free) → heap end: the
blocks at 272 and 360 are address-adjacent and both free, so the claim
that deallocate re-establishes invariant 3 fails.  The cascade: the
reallocate shrink left the free 216-byte block mis-bucketed (C8);
`remove_link` then cleared the wrong slot, the stale bucket head handed
the live block at 240 out twice (both calls return payload 248), and the
second allocation's split carved the free block at 272 next to the free
block at 360.  The source's own checker `mm_check` asserts exactly this
invariant ("Are all free blocks coalesced?") and would abort here. -/
theorem c9_adjacent_free_after_free :
    tE1.2 = 248 ∧ tE2.2 = 248 ∧
    read tE3 208 = 32 ∧ read tE3 240 = 33 ∧ read tE3 272 = 88 ∧ read tE3 360 = 96 ∧
    208 + andm2 (read tE3 208) = 240 ∧ 240 + andm2 (read tE3 240) = 272 ∧
    272 + andm2 (read tE3 272) = 360 ∧ 360 + andm2 (read tE3 360) = 8 + tE3.size ∧
    (read tE3 272) % 2 = 0 ∧ (read tE3 360) % 2 = 0 := by
  decide

/-- C1 (code bug, evaluation at the failing input): trace R's final
`mm_realloc(456, 200)` merges the free previous block, moves the payload
to the block now headed at 360 (header 217 = size 216, allocated), and
extends the heap to 568 bytes — but returns the stale pointer 456 instead
of 368.  The cell before the returned pointer (448) is payload, not an
allocated header, and the requested 200-byte region at 456 does not even
fit inside the heap: 456 + 200 > 8 + 568, so the live region cannot be
a properly sized, non-overlapping allocated region. -/
theorem c1_heapend_realloc_stale :
    (rstep5 1000).2 = 456 ∧ (rstep5 1000).1.size = 568 ∧
    read (rstep5 1000).1 360 = 217 ∧ (read (rstep5 1000).1 448) % 2 = 0 ∧
    8 + (rstep5 1000).1.size < 456 + 200 := by
  decide

end MMAlloc
